import Mathlib

/-!
# restricted-zone-notifier: zone geometry, intrusion test and the channel pipeline

A shallow embedding of `main.go`.

* Go's `int` is the 64-bit signed integer; values are `Int` and the one place
  where the program adds (`SetRestrictedZone`) wraps explicitly.
* `image.Point`, `image.Rectangle`, `image.Rect`, `Rectangle.Empty`,
  `Rectangle.In` and `Rectangle.Overlaps` are the Go standard library's
  (`image/geom.go`), transcribed.
* A `gocv.Mat` is its `Cols()` and `Rows()`; the pixel buffer is not modelled,
  and what the detector finds in it enters as a parameter of the detection
  action.
* Pointers that can be nil are `Option`s. A `frame` holds the addresses of
  `main`'s variables `img` and `area` (line 459); these two variables live in
  the shared state, `main` writes them (lines 427, 436, 447) and `frameRunner`
  reads them through the frame's pointers (lines 211, 215) at the moment it
  gets there. Each such read or write is one atomic move.
* Goroutines are program counters over a shared state; one `Action` is one
  atomic move of one goroutine (or of the environment), `step` returns `none`
  when that move is not enabled (the goroutine is blocked there).
* Channel operations follow the Go language specification: a send on a
  buffered channel blocks while the buffer is full and panics on a closed
  channel, a receive blocks while the buffer is empty and the channel open and
  yields the zero value once it is closed and drained, `select` may take any
  case that is ready, and `default` only when none is.
* The detector (`gocv.Net`), the capture, the window and the MQTT client are
  external; what they return enters as parameters of the actions.
-/

namespace RestrictedZone

/-! ## Go `int` -/

/-- Two's-complement wrap of a mathematical integer into Go's 64-bit `int`. -/
def wrapInt (i : Int) : Int := (i + 2 ^ 63) % 2 ^ 64 - 2 ^ 63

/-- Go's `+` on `int`. -/
def addInt (a b : Int) : Int := wrapInt (a + b)

/-- Go's `-` on `int`. -/
def subInt (a b : Int) : Int := wrapInt (a - b)

/-- The values an `int` can hold. -/
def isInt (i : Int) : Prop := -(2 ^ 63) ≤ i ∧ i < 2 ^ 63

/-! ## `image` geometry (Go standard library) -/

/-- The type `image.Point`. -/
structure Point where
  X : Int
  Y : Int
  deriving DecidableEq, Repr

/-- The type `image.Rectangle`: `Min` inclusive, `Max` exclusive. -/
structure Rectangle where
  Min : Point
  Max : Point
  deriving DecidableEq, Repr

/-- The constructor `image.Rect`: swaps coordinates so the result is well-formed. -/
def Rect (x0 y0 x1 y1 : Int) : Rectangle :=
  let (x0, x1) := if x0 > x1 then (x1, x0) else (x0, x1)
  let (y0, y1) := if y0 > y1 then (y1, y0) else (y0, y1)
  ⟨⟨x0, y0⟩, ⟨x1, y1⟩⟩

/-- The method `Rectangle.Empty`: the rectangle contains no points. -/
def Rectangle.Empty (r : Rectangle) : Bool :=
  decide (r.Min.X ≥ r.Max.X) || decide (r.Min.Y ≥ r.Max.Y)

/-- The method `Rectangle.In`: every point of `r` is in `s`. -/
def Rectangle.In (r s : Rectangle) : Bool :=
  if r.Empty then true
  else
    decide (s.Min.X ≤ r.Min.X) && decide (r.Max.X ≤ s.Max.X) &&
      decide (s.Min.Y ≤ r.Min.Y) && decide (r.Max.Y ≤ s.Max.Y)

/-- The method `Rectangle.Overlaps`: `r` and `s` have a non-empty intersection. -/
def Rectangle.Overlaps (r s : Rectangle) : Bool :=
  !r.Empty && !s.Empty &&
    decide (r.Min.X < s.Max.X) && decide (s.Min.X < r.Max.X) &&
    decide (r.Min.Y < s.Max.Y) && decide (s.Min.Y < r.Max.Y)

/-- The method `Rectangle.Size`. -/
def Rectangle.Size (r : Rectangle) : Point :=
  ⟨subInt r.Max.X r.Min.X, subInt r.Max.Y r.Min.Y⟩

/-- A pixel `(x, y)` belongs to `r` (what `Point.In` tests). -/
def Rectangle.HasPoint (r : Rectangle) (x y : Int) : Prop :=
  r.Min.X ≤ x ∧ x < r.Max.X ∧ r.Min.Y ≤ y ∧ y < r.Max.Y

/-- Two rectangles share at least one point. -/
def Rectangle.SharesPoint (r s : Rectangle) : Prop :=
  ∃ x y : Int, r.HasPoint x y ∧ s.HasPoint x y

/-- Every point of `r` is a point of `s`. -/
def Rectangle.Within (r s : Rectangle) : Prop :=
  ∀ x y : Int, r.HasPoint x y → s.HasPoint x y

/-- Coordinate-wise containment of the corners of `r` in `s`. -/
def Rectangle.CornersIn (r s : Rectangle) : Prop :=
  s.Min.X ≤ r.Min.X ∧ r.Max.X ≤ s.Max.X ∧ s.Min.Y ≤ r.Min.Y ∧ r.Max.Y ≤ s.Max.Y

/-- A rectangle as `image.Rect` builds it. -/
def Rectangle.WellFormed (r : Rectangle) : Prop :=
  r.Min.X ≤ r.Max.X ∧ r.Min.Y ≤ r.Max.Y

instance (r : Rectangle) (x y : Int) : Decidable (r.HasPoint x y) := by
  unfold Rectangle.HasPoint
  infer_instance

instance (r s : Rectangle) : Decidable (r.CornersIn s) := by
  unfold Rectangle.CornersIn
  infer_instance

instance (r : Rectangle) : Decidable r.WellFormed := by
  unfold Rectangle.WellFormed
  infer_instance

/-! ## `gocv.Mat` as the program uses it -/

/-- An image matrix: what `Cols()` and `Rows()` return. -/
structure Mat where
  Cols : Int
  Rows : Int
  deriving DecidableEq, Repr

/-! ## Results -/

/-- The type `Perf`; `Net` is a `float64`, kept as its 64-bit pattern since no
modelled operation computes with it. -/
structure Perf where
  Net : Nat
  deriving DecidableEq, Repr

/-- The type `Result`; `Perf` is a pointer. -/
structure Result where
  Alert : Bool
  Perf : Option Perf
  deriving DecidableEq, Repr

/-- What `fmt.Sprintf` prints for a `bool` under `%v`. -/
def fmtBool (b : Bool) : String := if b then "true" else "false"

/-- The method `Result.ToMQTTMessage` on a non-nil receiver. -/
def Result.ToMQTTMessage (r : Result) : String :=
  "\x7b\"Safe\" : " ++ fmtBool (!r.Alert) ++ "\x7d"

/-! ## Intrusion test and zone calculator -/

/-- The function `detectMotion`: the first box that is `In` the frame rectangle
and `In` the area raises the alert; a box not `In` the frame is skipped. -/
def detectMotion (img : Mat) (persons : List Rectangle) (area : Rectangle) : Bool :=
  match persons with
  | [] => false
  | p :: rest =>
    if !(p.In (Rect 0 0 img.Cols img.Rows)) then detectMotion img rest area
    else if p.In area then true
    else detectMotion img rest area

/-- The function `SetRestrictedZone`: writes the four coordinates of `area`. -/
def SetRestrictedZone (pointX pointY width height : Int) (img : Mat)
    (area : Rectangle) : Rectangle :=
  let (x, y) := ((0 : Int), (0 : Int))
  let (w, h) := (width, height)
  let (x, y) := if pointX > 0 ∧ pointY > 0 then (pointX, pointY) else (x, y)
  let w := if width ≤ 0 then img.Cols else w
  let h := if h ≤ 0 then img.Rows else h
  { area with Min := ⟨x, y⟩, Max := ⟨addInt x w, addInt y h⟩ }

/-! ## Go channels -/

/-- A channel: the queued values (oldest first), its capacity, whether it is closed. -/
structure Chan (α : Type) where
  buf : List α
  cap : Nat
  closed : Bool
  deriving DecidableEq, Repr

/-- The outcome of a send statement. -/
inductive SendResult (α : Type) where
  | blocked
  | panicked
  | sent (c : Chan α)
  deriving DecidableEq, Repr

/-- The statement `c <- v`: panics on a closed channel, enqueues when the buffer
has room, blocks otherwise. -/
def Chan.send {α : Type} (c : Chan α) (v : α) : SendResult α :=
  if c.closed then .panicked
  else if c.buf.length < c.cap then .sent { c with buf := c.buf ++ [v] }
  else .blocked

/-- The expression `<-c`: `none` when the receive blocks; otherwise the received
value and the channel afterwards, the value being `none` (the zero value, a nil
pointer) when the channel is closed and drained. -/
def Chan.recv {α : Type} (c : Chan α) : Option (Option α × Chan α) :=
  match c.buf with
  | v :: rest => some (some v, { c with buf := rest })
  | [] => if c.closed then some (none, c) else none

/-- The statement `close(c)`: `none` when it panics (already closed). -/
def Chan.close {α : Type} (c : Chan α) : Option (Chan α) :=
  if c.closed then none else some { c with closed := true }

/-- The expression `make(chan T, n)`. -/
def Chan.make (α : Type) (n : Nat) : Chan α := ⟨[], n, false⟩

/-! ## The detector capability -/

/-- What one forward pass of the network yields, as the pipeline sees it: the
`(left, top, right, bottom)` integers of the detections above the confidence
threshold (computed by gocv in floating point), and the latency that
`getPerformanceInfo` reports afterwards. -/
structure Detection where
  boxes : List (Int × Int × Int × Int)
  perf : Perf
  deriving DecidableEq, Repr

/-- The function `detectPersons`: one `image.Rect` per retained detection. -/
def detectPersons (out : Detection) : List Rectangle :=
  out.boxes.map fun d => Rect d.1 d.2.1 d.2.2.1 d.2.2.2

/-- The function `getPerformanceInfo`: always a fresh non-nil `*Perf`. -/
def getPerformanceInfo (out : Detection) : Option Perf := some out.perf

/-- The address of a `gocv.Mat` variable; the program takes that of `main`'s `img`
only (line 459). -/
inductive MatPtr where
  | mainImg
  deriving DecidableEq, Repr

/-- The address of an `image.Rectangle` variable; the program takes that of `main`'s
`area` only (line 459). -/
inductive RectPtr where
  | mainArea
  deriving DecidableEq, Repr

/-- The type `frame`: two pointers. -/
structure frame where
  img : MatPtr
  area : RectPtr
  deriving DecidableEq, Repr

/-! ## Goroutines -/

/-- Where `frameRunner` (with its `go func` wrapper) stands. -/
inductive FRPc where
  /-- at the `select` of line 195 -/
  | select
  /-- holding a non-nil frame, about to run `frame.img.CopyTo(&img)` (line 211) -/
  | copy (f : frame)
  /-- holding the local copy, about to run `detectPersons`, `detectMotion` and
  `getPerformanceInfo` (lines 213-217) -/
  | detect (f : frame) (img : Mat)
  /-- about to run `resultsChan <- result` (line 225) -/
  | sendResults (r : Result)
  /-- about to run `if pubChan != nil { pubChan <- result }` (lines 226-228) -/
  | sendPub (r : Result)
  /-- stop branch taken, about to run `close(resultsChan)` (line 199) -/
  | closeResults
  /-- about to run `if pubChan != nil { close(pubChan) }` (lines 201-203) -/
  | closePub
  /-- returned, about to run `errChan <- ...` of the wrapper (line 408) -/
  | report
  /-- wrapper done (`wg.Done()`) -/
  | finished
  deriving DecidableEq, Repr

/-- Where `messageRunner` (with its `go func` wrapper) stands. -/
inductive MRPc where
  /-- at the `select` of line 120 (idle) -/
  | select
  /-- ticker case taken, about to run `result := <-pubChan` (line 122) -/
  | recv
  /-- about to run `c.Publish(topic, result.ToMQTTMessage())` (line 123) -/
  | publish (r : Option Result)
  /-- returned, about to run `errChan <- ...` of the wrapper (line 399) -/
  | report
  /-- wrapper done (`wg.Done()`) -/
  | finished
  deriving DecidableEq, Repr

/-- Where `main` stands. -/
inductive MainPc where
  /-- at the top of the `monitor` loop, about to run `vc.Read(&img)` (line 427) -/
  | loop
  /-- about to run the first `SetRestrictedZone` (line 436) -/
  | zone
  /-- about to run the `switch` on `window.WaitKey` (lines 438-454) -/
  | key
  /-- about to draw the zone and run `framesChan <- &frame{...}` (lines 457-459) -/
  | sendFrame (f : frame)
  /-- at the `select` of line 461 -/
  | poll
  /-- out of the loop, about to run `close(framesChan)` (line 487) -/
  | closeFrames
  /-- about to run `close(doneChan)` (line 488) -/
  | closeDone
  /-- in `for range resultsChan` (line 490) -/
  | drain
  /-- at `wg.Wait()` (line 494) -/
  | wait
  /-- returned -/
  | exited
  deriving DecidableEq, Repr

/-- What `window.WaitKey` returned and, for key 99, the region `SelectROI` gave. -/
inductive Key where
  | other
  | roi (r : Rectangle)
  | esc
  deriving DecidableEq, Repr

/-- The zone flags `-x -y -width -height` (package-level variables). -/
structure Config where
  pointX : Int
  pointY : Int
  width : Int
  height : Int
  deriving DecidableEq, Repr

/-- The shared state of the running program; `img`, `area` and `result` are the
variables of `main` with these names. -/
structure Sys where
  framesChan : Chan frame
  errChan : Chan Unit
  doneChan : Chan Unit
  resultsChan : Chan Result
  pubChan : Option (Chan Result)
  ticker : Chan Unit
  cfg : Config
  img : Mat
  area : Rectangle
  result : Option Result
  published : List (String × String)
  mainPc : MainPc
  fr : FRPc
  mr : Option MRPc
  crashed : Bool
  deriving DecidableEq, Repr

/-- The `gocv.Mat` a pointer refers to, as it is now. -/
def Sys.loadMat (s : Sys) : MatPtr → Mat
  | .mainImg => s.img

/-- The `image.Rectangle` a pointer refers to, as it is now. -/
def Sys.loadRect (s : Sys) : RectPtr → Rectangle
  | .mainArea => s.area

/-- One atomic move. -/
inductive Action where
  /-- the ticker fires -/
  | tick
  /-- the call `vc.Read(&img)` succeeds and leaves the non-empty image `img` -/
  | mainRead (img : Mat)
  /-- the call `vc.Read(&img)` succeeds and leaves the empty image `img`: `continue` -/
  | mainReadEmpty (img : Mat)
  /-- the call `vc.Read(&img)` fails, leaving `img` behind: `break` -/
  | mainReadFail (img : Mat)
  /-- the call `SetRestrictedZone(pointX, pointY, width, height, &img, &area)` -/
  | mainZone
  /-- the `switch` on the key that `WaitKey` gives -/
  | mainKey (key : Key)
  /-- the send `framesChan <- &frame{img: &img, area: &area}` -/
  | mainSend
  /-- select, `case sig := <-sigChan` (a signal is pending) -/
  | mainSig
  /-- select, `case err = <-errChan` -/
  | mainErr
  /-- select, `case result = <-resultsChan`, then the overlays read `result` -/
  | mainResult
  /-- select, `default` (no other case ready) -/
  | mainDefault
  /-- the call `close(framesChan)` -/
  | mainCloseFrames
  /-- the call `close(doneChan)` -/
  | mainCloseDone
  /-- one receive of `for range resultsChan` -/
  | mainDrain
  /-- the call `wg.Wait()` returns -/
  | mainWait
  /-- select, `case <-doneChan` -/
  | frStop
  /-- select, `case frame = <-framesChan`, with the nil check of line 206 -/
  | frFrame
  /-- the call `frame.img.CopyTo(&img)` -/
  | frCopy
  /-- the forward pass yields `out`; `detectMotion` reads `*frame.area` -/
  | frDetect (out : Detection)
  /-- the send `resultsChan <- result` -/
  | frSendResults
  /-- the statement `if pubChan != nil { pubChan <- result }` -/
  | frSendPub
  /-- the call `close(resultsChan)` -/
  | frCloseResults
  /-- the statement `if pubChan != nil { close(pubChan) }` -/
  | frClosePub
  /-- the wrapper's `errChan <- nil` and `wg.Done()` -/
  | frReport
  /-- select, `case <-ticker.C` -/
  | mrTick
  /-- select, `case <-pubChan` (discard) -/
  | mrDiscard
  /-- select, `case <-doneChan` -/
  | mrStop
  /-- the receive `result := <-pubChan` -/
  | mrRecv
  /-- the call `c.Publish(topic, result.ToMQTTMessage())` -/
  | mrPublish
  /-- the wrapper's `errChan <- nil` and `wg.Done()` -/
  | mrReport
  deriving DecidableEq, Repr

/-- The constant `topic`. -/
def topic : String := "machine/zone"

/-- The state `main` sets up before its monitor loop, with the flag `-publish`;
`gocv.NewMat()` is the empty matrix. -/
def Sys.init (cfg : Config) (publish : Bool) : Sys :=
  { framesChan := Chan.make frame 1
    errChan := Chan.make Unit 2
    doneChan := Chan.make Unit 0
    resultsChan := Chan.make Result 1
    pubChan := if publish then some (Chan.make Result 1) else none
    ticker := Chan.make Unit 1
    cfg := cfg
    img := ⟨0, 0⟩
    area := ⟨⟨0, 0⟩, ⟨0, 0⟩⟩
    result := some ⟨false, none⟩
    published := []
    mainPc := .loop
    fr := .select
    mr := if publish then some .select else none
    crashed := false }

/-- The environment: the ticker fires; the runtime drops the tick when the
ticker's one-slot channel is still full. -/
def stepEnv (s : Sys) : Option Sys :=
  match s.ticker.send () with
  | .sent c => some { s with ticker := c }
  | _ => some s

/-- The moves of `main`: the monitor loop (lines 425-485) and the shutdown
sequence (lines 486-494). The drawing calls (lines 457, 473-482) write pixels
only. -/
def stepMain (s : Sys) : Action → Option Sys
  | .mainRead img =>
    match s.mainPc with
    | .loop => some { s with img := img, mainPc := .zone }
    | _ => none
  | .mainReadEmpty img =>
    match s.mainPc with
    | .loop => some { s with img := img }
    | _ => none
  | .mainReadFail img =>
    match s.mainPc with
    | .loop => some { s with img := img, mainPc := .closeFrames }
    | _ => none
  | .mainZone =>
    match s.mainPc with
    | .zone =>
      some { s with
        area := SetRestrictedZone s.cfg.pointX s.cfg.pointY s.cfg.width s.cfg.height
          s.img s.area
        mainPc := .key }
    | _ => none
  | .mainKey key =>
    match s.mainPc with
    | .key =>
      match key with
      | .roi r =>
        let cfg : Config := ⟨r.Min.X, r.Min.Y, r.Size.X, r.Size.Y⟩
        some { s with
          cfg := cfg
          area := SetRestrictedZone cfg.pointX cfg.pointY cfg.width cfg.height s.img s.area
          mainPc := .sendFrame ⟨.mainImg, .mainArea⟩ }
      | .esc => some { s with mainPc := .closeFrames }
      | .other => some { s with mainPc := .sendFrame ⟨.mainImg, .mainArea⟩ }
    | _ => none
  | .mainSend =>
    match s.mainPc with
    | .sendFrame f =>
      match s.framesChan.send f with
      | .sent c => some { s with framesChan := c, mainPc := .poll }
      | .panicked => some { s with crashed := true }
      | .blocked => none
    | _ => none
  | .mainSig =>
    match s.mainPc with
    | .poll => some { s with mainPc := .closeFrames }
    | _ => none
  | .mainErr =>
    match s.mainPc with
    | .poll =>
      match s.errChan.recv with
      | some (_, c) => some { s with errChan := c, mainPc := .closeFrames }
      | none => none
    | _ => none
  | .mainResult =>
    match s.mainPc with
    | .poll =>
      match s.resultsChan.recv with
      | some (some r, c) => some { s with resultsChan := c, result := some r, mainPc := .loop }
      | some (none, c) => some { s with resultsChan := c, result := none, crashed := true }
      | none => none
    | _ => none
  | .mainDefault =>
    match s.mainPc with
    | .poll =>
      match s.errChan.recv, s.resultsChan.recv with
      | none, none => some { s with mainPc := .loop }
      | _, _ => none
    | _ => none
  | .mainCloseFrames =>
    match s.mainPc with
    | .closeFrames =>
      match s.framesChan.close with
      | some c => some { s with framesChan := c, mainPc := .closeDone }
      | none => some { s with crashed := true }
    | _ => none
  | .mainCloseDone =>
    match s.mainPc with
    | .closeDone =>
      match s.doneChan.close with
      | some c => some { s with doneChan := c, mainPc := .drain }
      | none => some { s with crashed := true }
    | _ => none
  | .mainDrain =>
    match s.mainPc with
    | .drain =>
      match s.resultsChan.recv with
      | some (some _, c) => some { s with resultsChan := c }
      | some (none, c) => some { s with resultsChan := c, mainPc := .wait }
      | none => none
    | _ => none
  | .mainWait =>
    match s.mainPc with
    | .wait =>
      if s.fr = .finished ∧ (s.mr = none ∨ s.mr = some .finished) then
        some { s with mainPc := .exited }
      else none
    | _ => none
  | _ => none

/-- The moves of `frameRunner` (lines 194-233) and of its wrapper (line 408). The
copy of line 211 takes what `main`'s `img` holds when it runs, and `detectMotion`
(line 215) what `main`'s `area` holds when it runs. -/
def stepFR (s : Sys) : Action → Option Sys
  | .frStop =>
    match s.fr with
    | .select =>
      match s.doneChan.recv with
      | some (_, c) => some { s with doneChan := c, fr := .closeResults }
      | none => none
    | _ => none
  | .frFrame =>
    match s.fr with
    | .select =>
      match s.framesChan.recv with
      | some (none, c) => some { s with framesChan := c }
      | some (some f, c) => some { s with framesChan := c, fr := .copy f }
      | none => none
    | _ => none
  | .frCopy =>
    match s.fr with
    | .copy f => some { s with fr := .detect f (s.loadMat f.img) }
    | _ => none
  | .frDetect out =>
    match s.fr with
    | .detect f img =>
      let persons := detectPersons out
      let alert := detectMotion img persons (s.loadRect f.area)
      let perf := getPerformanceInfo out
      some { s with fr := .sendResults ⟨alert, perf⟩ }
    | _ => none
  | .frSendResults =>
    match s.fr with
    | .sendResults r =>
      match s.resultsChan.send r with
      | .sent c => some { s with resultsChan := c, fr := .sendPub r }
      | .panicked => some { s with crashed := true }
      | .blocked => none
    | _ => none
  | .frSendPub =>
    match s.fr with
    | .sendPub r =>
      match s.pubChan with
      | none => some { s with fr := .select }
      | some pc =>
        match pc.send r with
        | .sent c => some { s with pubChan := some c, fr := .select }
        | .panicked => some { s with crashed := true }
        | .blocked => none
    | _ => none
  | .frCloseResults =>
    match s.fr with
    | .closeResults =>
      match s.resultsChan.close with
      | some c => some { s with resultsChan := c, fr := .closePub }
      | none => some { s with crashed := true }
    | _ => none
  | .frClosePub =>
    match s.fr with
    | .closePub =>
      match s.pubChan with
      | none => some { s with fr := .report }
      | some pc =>
        match pc.close with
        | some c => some { s with pubChan := some c, fr := .report }
        | none => some { s with crashed := true }
    | _ => none
  | .frReport =>
    match s.fr with
    | .report =>
      match s.errChan.send () with
      | .sent c => some { s with errChan := c, fr := .finished }
      | .panicked => some { s with crashed := true }
      | .blocked => none
    | _ => none
  | _ => none

/-- The moves of `messageRunner` (lines 119-135) and of its wrapper (line 399).
A receive on a nil `pubChan` blocks for ever. -/
def stepMR (s : Sys) : Action → Option Sys
  | .mrTick =>
    match s.mr with
    | some .select =>
      match s.ticker.recv with
      | some (_, c) => some { s with ticker := c, mr := some .recv }
      | none => none
    | _ => none
  | .mrRecv =>
    match s.mr with
    | some .recv =>
      match s.pubChan with
      | none => none
      | some pc =>
        match pc.recv with
        | some (r, c) => some { s with pubChan := some c, mr := some (.publish r) }
        | none => none
    | _ => none
  | .mrPublish =>
    match s.mr with
    | some (.publish none) => some { s with crashed := true }
    | some (.publish (some r)) =>
      some { s with published := s.published ++ [(topic, r.ToMQTTMessage)], mr := some .select }
    | _ => none
  | .mrDiscard =>
    match s.mr with
    | some .select =>
      match s.pubChan with
      | none => none
      | some pc =>
        match pc.recv with
        | some (_, c) => some { s with pubChan := some c }
        | none => none
    | _ => none
  | .mrStop =>
    match s.mr with
    | some .select =>
      match s.doneChan.recv with
      | some (_, c) => some { s with doneChan := c, mr := some .report }
      | none => none
    | _ => none
  | .mrReport =>
    match s.mr with
    | some .report =>
      match s.errChan.send () with
      | .sent c => some { s with errChan := c, mr := some .finished }
      | .panicked => some { s with crashed := true }
      | .blocked => none
    | _ => none
  | _ => none

/-- Which goroutine an action belongs to. -/
inductive Who where
  | env
  | main
  | frameRunner
  | messageRunner
  deriving DecidableEq, Repr

/-- The owner of each action. -/
def Action.who : Action → Who
  | .tick => .env
  | .mainRead _ | .mainReadEmpty _ | .mainReadFail _ | .mainZone | .mainKey _ | .mainSend
  | .mainSig | .mainErr | .mainResult | .mainDefault | .mainCloseFrames | .mainCloseDone
  | .mainDrain | .mainWait => .main
  | .frStop | .frFrame | .frCopy | .frDetect _ | .frSendResults | .frSendPub
  | .frCloseResults | .frClosePub | .frReport => .frameRunner
  | .mrTick | .mrDiscard | .mrStop | .mrRecv | .mrPublish | .mrReport => .messageRunner

/-- One step of the program: `none` when the action is not enabled. A panic in
any goroutine ends the process, so nothing is enabled once `crashed`. -/
def step (s : Sys) (a : Action) : Option Sys :=
  if s.crashed then none
  else
    match a.who with
    | .env => stepEnv s
    | .main => stepMain s a
    | .frameRunner => stepFR s a
    | .messageRunner => stepMR s a

/-- An execution: every action of the schedule must be enabled in turn. -/
def run (s : Sys) : List Action → Option Sys
  | [] => some s
  | a :: rest =>
    match step s a with
    | some s1 => run s1 rest
    | none => none

/-- An execution that ignores the actions that are not enabled when offered. -/
def exec (s : Sys) : List Action → Sys
  | [] => s
  | a :: rest =>
    match step s a with
    | some s1 => exec s1 rest
    | none => exec s rest

/-- The transitions of `messageRunner` between its program points while `pubChan`
is open: idle to receiving (tick), receiving to publishing (a Result arrived),
publishing to idle, idle to reporting (stop signal), reporting to finished. -/
def mrNext : MRPc → MRPc → Bool
  | .select, .recv => true
  | .recv, .publish (some _) => true
  | .publish (some _), .select => true
  | .select, .report => true
  | .report, .finished => true
  | _, _ => false

/-- The program points of `frameRunner` past its stop branch. -/
def FRPc.stopped : FRPc → Bool
  | .closeResults | .closePub | .report | .finished => true
  | _ => false

/-- The shutdown state in which `frameRunner` is about to send `r2` on `pubChan`,
whose slot still holds `r1`, `messageRunner` has returned, and `main` is in its
drain loop over the empty, open `resultsChan`. -/
def Sys.stuckAtPub (r1 r2 : Result) (t : Sys) : Prop :=
  t.crashed = false ∧ t.fr = .sendPub r2 ∧ t.mainPc = .drain ∧ t.mr = some .finished ∧
    t.pubChan = some ⟨[r1], 1, false⟩ ∧ t.resultsChan = ⟨[], 1, false⟩

/-- A 640x480 image. -/
def vga : Mat := ⟨640, 480⟩

/-- A 320x240 image. -/
def qvga : Mat := ⟨320, 240⟩

/-- The shutdown state in which `frameRunner` is left at its send on `pubChan`. -/
def shutdownStuck : Sys :=
  { framesChan := ⟨[], 1, true⟩
    errChan := ⟨[()], 2, false⟩
    doneChan := ⟨[], 0, true⟩
    resultsChan := ⟨[], 1, false⟩
    pubChan := some ⟨[⟨true, some ⟨0⟩⟩], 1, false⟩
    ticker := ⟨[], 1, false⟩
    cfg := ⟨0, 0, 0, 0⟩
    img := ⟨640, 480⟩
    area := ⟨⟨0, 0⟩, ⟨640, 480⟩⟩
    result := some ⟨true, some ⟨0⟩⟩
    published := []
    mainPc := .drain
    fr := .sendPub ⟨false, some ⟨0⟩⟩
    mr := some .finished
    crashed := false }

/-- A forward pass that finds nobody. -/
def nobody : Detection := ⟨[], ⟨0⟩⟩

/-- A forward pass that finds one person at (10,10)-(20,20). -/
def onePerson : Detection := ⟨[(10, 10, 20, 20)], ⟨0⟩⟩

/-- The flags' default zone configuration. -/
def defaultCfg : Config := ⟨0, 0, 0, 0⟩

/-! ## Geometry lemmas -/

theorem wrapInt_of_isInt (i : Int) (h : isInt i) : wrapInt i = i := by
  unfold isInt at h
  unfold wrapInt
  omega

theorem addInt_of_isInt (a b : Int) (h : isInt (a + b)) : addInt a b = a + b :=
  wrapInt_of_isInt _ h

theorem empty_eq_false_iff (r : Rectangle) :
    r.Empty = false ↔ r.Min.X < r.Max.X ∧ r.Min.Y < r.Max.Y := by
  simp [Rectangle.Empty]

theorem in_iff_cornersIn (r s : Rectangle) (h : r.Empty = false) :
    r.In s = true ↔ r.CornersIn s := by
  simp [Rectangle.In, h, Rectangle.CornersIn, and_assoc]

theorem cornersIn_iff_within (r s : Rectangle) (h : r.Empty = false) :
    r.CornersIn s ↔ r.Within s := by
  rw [empty_eq_false_iff] at h
  obtain ⟨hx, hy⟩ := h
  constructor
  · rintro ⟨h1, h2, h3, h4⟩ x y ⟨p1, p2, p3, p4⟩
    exact ⟨by omega, by omega, by omega, by omega⟩
  · intro hw
    obtain ⟨a1, _, a3, _⟩ := hw r.Min.X r.Min.Y ⟨le_refl _, hx, le_refl _, hy⟩
    obtain ⟨_, b2, _, b4⟩ :=
      hw (r.Max.X - 1) (r.Max.Y - 1) ⟨by omega, by omega, by omega, by omega⟩
    exact ⟨a1, by omega, a3, by omega⟩

theorem in_iff_within (r s : Rectangle) (h : r.Empty = false) :
    r.In s = true ↔ r.Within s :=
  (in_iff_cornersIn r s h).trans (cornersIn_iff_within r s h)

theorem in_of_empty (r s : Rectangle) (h : r.Empty = true) : r.In s = true := by
  simp [Rectangle.In, h]

theorem not_empty_of_sharesPoint (r s : Rectangle) (h : r.SharesPoint s) :
    r.Empty = false := by
  obtain ⟨x, y, ⟨p1, p2, p3, p4⟩, _⟩ := h
  rw [empty_eq_false_iff]
  exact ⟨by omega, by omega⟩

theorem sharesPoint_of_within (r s : Rectangle) (h : r.Empty = false) (hw : r.Within s) :
    r.SharesPoint s := by
  rw [empty_eq_false_iff] at h
  have hp : r.HasPoint r.Min.X r.Min.Y := ⟨le_refl _, h.1, le_refl _, h.2⟩
  exact ⟨r.Min.X, r.Min.Y, hp, hw _ _ hp⟩

/-- Go's `Overlaps` is the sharing of a point. -/
theorem overlaps_iff_sharesPoint (r s : Rectangle) :
    r.Overlaps s = true ↔ r.SharesPoint s := by
  constructor
  · intro h
    simp only [Rectangle.Overlaps, Rectangle.Empty, Bool.and_eq_true, Bool.not_eq_true',
      Bool.or_eq_false_iff, decide_eq_false_iff_not, decide_eq_true_eq] at h
    obtain ⟨⟨⟨⟨⟨⟨hr1, hr2⟩, hs1, hs2⟩, h1⟩, h2⟩, h3⟩, h4⟩ := h
    exact ⟨max r.Min.X s.Min.X, max r.Min.Y s.Min.Y,
      ⟨le_max_left _ _, max_lt (by omega) h2, le_max_left _ _, max_lt (by omega) h4⟩,
      ⟨le_max_right _ _, max_lt h1 (by omega), le_max_right _ _, max_lt h3 (by omega)⟩⟩
  · rintro ⟨x, y, ⟨p1, p2, p3, p4⟩, q1, q2, q3, q4⟩
    simp only [Rectangle.Overlaps, Rectangle.Empty, Bool.and_eq_true, Bool.not_eq_true',
      Bool.or_eq_false_iff, decide_eq_false_iff_not, decide_eq_true_eq]
    refine ⟨⟨⟨⟨⟨⟨?_, ?_⟩, ?_, ?_⟩, ?_⟩, ?_⟩, ?_⟩, ?_⟩ <;> omega

/-- The loop of `detectMotion` in closed form over Go's `In`. -/
theorem detectMotion_iff_exists_in (img : Mat) (persons : List Rectangle) (area : Rectangle) :
    detectMotion img persons area = true ↔
      ∃ b ∈ persons, b.In (Rect 0 0 img.Cols img.Rows) = true ∧ b.In area = true := by
  induction persons with
  | nil => simp [detectMotion]
  | cons p rest ih =>
    unfold detectMotion
    by_cases h1 : p.In (Rect 0 0 img.Cols img.Rows) = true
    · by_cases h2 : p.In area = true
      · simp [h1, h2]
      · simp [h1, h2, ih]
    · simp [h1, ih]

/-- For non-empty boxes the claim of C4 holds: a list of non-empty boxes none of
which shares a point with the zone raises no alert. -/
theorem detectMotion_false_of_disjoint_nonempty (img : Mat) (persons : List Rectangle)
    (area : Rectangle) (hne : ∀ b ∈ persons, b.Empty = false)
    (hd : ∀ b ∈ persons, ¬ b.SharesPoint area) :
    detectMotion img persons area = false := by
  rw [← Bool.not_eq_true, detectMotion_iff_exists_in]
  rintro ⟨b, hb, _, h2⟩
  exact hd b hb (sharesPoint_of_within b area (hne b hb)
    ((in_iff_within b area (hne b hb)).mp h2))

/-! ## Channel and scheduling lemmas -/

theorem Chan.recv_some_of_open {α : Type} (c c1 : Chan α) (r : Option α)
    (h : c.closed = false) (hr : c.recv = some (r, c1)) : ∃ v, r = some v := by
  unfold Chan.recv at hr
  split at hr
  · simp at hr
    exact ⟨_, hr.1.symm⟩
  · simp [h] at hr

theorem Chan.recv_isSome_of_closed {α : Type} (c : Chan α) (h : c.closed = true) :
    ∃ v c1, c.recv = some (v, c1) := by
  unfold Chan.recv
  split
  · exact ⟨_, _, rfl⟩
  · exact ⟨none, c, by simp [h]⟩

/-- Moves of the other goroutines leave `messageRunner` where it is. -/
theorem step_mr_of_not_messageRunner (t t1 : Sys) (a : Action)
    (ha : a.who ≠ .messageRunner) (h : step t a = some t1) : t1.mr = t.mr := by
  unfold step at h
  split at h
  · simp at h
  · cases a <;> simp only [Action.who, stepEnv, stepMain, stepFR] at h ha <;>
      (try simp at ha) <;> (repeat' split at h) <;> simp at h <;> subst h <;> rfl

/-- While `pubChan` is open every step either leaves `messageRunner` where it is or
moves it along `mrNext`. -/
theorem step_mr_table (t t1 : Sys) (a : Action)
    (hopen : ∀ c, t.pubChan = some c → c.closed = false)
    (h : step t a = some t1) :
    t1.mr = t.mr ∨ ∃ p q, t.mr = some p ∧ t1.mr = some q ∧ mrNext p q = true := by
  by_cases ha : a.who = .messageRunner
  · unfold step at h
    split at h
    · simp at h
    · cases a <;> simp only [Action.who, stepMR] at h ha <;>
        (try simp at ha) <;> (repeat' split at h) <;> simp at h <;> subst h <;>
        simp_all [mrNext]
      obtain ⟨v, rfl⟩ := Chan.recv_some_of_open _ _ _ (by assumption) (by assumption)
      rfl
  · exact Or.inl (step_mr_of_not_messageRunner t t1 a ha h)

/-- Past its stop branch `frameRunner` stays past it. -/
theorem step_fr_stopped (t t1 : Sys) (a : Action)
    (hs : t.fr.stopped = true) (h : step t a = some t1) : t1.fr.stopped = true := by
  unfold step at h
  split at h
  · simp at h
  · cases a <;> simp only [Action.who, stepEnv, stepMain, stepFR, stepMR] at h <;>
      (repeat' split at h) <;> simp at h <;> subst h <;> simp_all [FRPc.stopped]

theorem exec_fr_stopped (as : List Action) (t : Sys)
    (hs : t.fr.stopped = true) : (exec t as).fr.stopped = true := by
  induction as generalizing t with
  | nil => exact hs
  | cons a rest ih =>
    unfold exec
    cases h : step t a with
    | none => exact ih t hs
    | some t1 => exact ih t1 (step_fr_stopped t t1 a hs h)

/-- Past its stop branch `frameRunner` receives no frame. -/
theorem frFrame_disabled_of_stopped (t : Sys) (hs : t.fr.stopped = true) :
    step t .frFrame = none := by
  unfold step
  split
  · rfl
  · simp only [Action.who, stepFR]
    split
    · rename_i h
      simp [h, FRPc.stopped] at hs
    · rfl

/-- No step leads out of `stuckAtPub`. -/
theorem step_stuckAtPub (r1 r2 : Result) (t t1 : Sys) (a : Action)
    (hs : t.stuckAtPub r1 r2) (h : step t a = some t1) : t1.stuckAtPub r1 r2 := by
  obtain ⟨h1, h2, h3, h4, h5, h6⟩ := hs
  cases a
  case tick =>
    simp only [step, Action.who, stepEnv, h1, Bool.false_eq_true, if_false] at h
    split at h <;> simp only [Option.some.injEq] at h <;> subst h <;>
      first
        | exact ⟨h1, h2, h3, h4, h5, h6⟩
        | exact ⟨rfl, h2, h3, h4, h5, h6⟩
  all_goals
    simp [step, Action.who, stepMain, stepFR, stepMR, h1, h2, h3, h4, h5, h6,
      Chan.send, Chan.recv] at h

theorem exec_stuckAtPub (r1 r2 : Result) (as : List Action) (t : Sys)
    (hs : t.stuckAtPub r1 r2) : (exec t as).stuckAtPub r1 r2 := by
  induction as generalizing t with
  | nil => exact hs
  | cons a rest ih =>
    unfold exec
    cases h : step t a with
    | none => exact ih t hs
    | some t1 => exact ih t1 (step_stuckAtPub r1 r2 t t1 a hs h)

/-- The frame's pointers are read late: in an ESC shutdown the frame was sent when
`img` was 640x480, `main` then read a 320x240 image into `img` and reset `area`, and
the worker's copy of line 211 takes the 320x240 image. -/
theorem frameRunner_copies_current_image :
    (run (Sys.init defaultCfg false)
        [.mainRead vga, .mainZone, .mainKey .other, .mainSend, .mainDefault,
          .mainRead qvga, .mainZone, .mainKey .esc, .mainCloseFrames, .mainCloseDone,
          .frFrame, .frCopy]).map (fun s => (s.fr, s.area)) =
      some (.detect ⟨.mainImg, .mainArea⟩ qvga, ⟨⟨0, 0⟩, ⟨320, 240⟩⟩) := by
  decide

/-! ## C1 -/

/-- C1, as stated, fails: on a 640x480 frame with zone (100,100)-(200,200), the box
(50,50)-(150,150) lies within the frame and shares points with the zone, yet
`detectMotion` returns false, because the zone test is containment. -/
theorem detectMotion_overlap_without_containment :
    (∃ b ∈ [Rect 50 50 150 150],
        b.Within (Rect 0 0 vga.Cols vga.Rows) ∧ b.SharesPoint (Rect 100 100 200 200)) ∧
      detectMotion vga [Rect 50 50 150 150] (Rect 100 100 200 200) = false := by
  refine ⟨⟨_, List.mem_singleton.mpr rfl, ?_, ?_⟩, by decide⟩
  · exact (in_iff_within _ _ (by decide)).mp (by decide)
  · exact ⟨100, 100, by decide, by decide⟩

/-- C1, amended: for every frame, zone and list of non-empty detection boxes,
`detectMotion` returns true iff at least one box lies within the frame rectangle
(0,0)-(cols,rows) and lies within (is contained in) the zone. -/
theorem detectMotion_iff_contained (img : Mat) (persons : List Rectangle) (area : Rectangle)
    (hne : ∀ b ∈ persons, b.Empty = false) :
    detectMotion img persons area = true ↔
      ∃ b ∈ persons, b.Within (Rect 0 0 img.Cols img.Rows) ∧ b.Within area := by
  rw [detectMotion_iff_exists_in]
  constructor
  · rintro ⟨b, hb, h1, h2⟩
    exact ⟨b, hb, (in_iff_within _ _ (hne b hb)).mp h1, (in_iff_within _ _ (hne b hb)).mp h2⟩
  · rintro ⟨b, hb, h1, h2⟩
    exact ⟨b, hb, (in_iff_within _ _ (hne b hb)).mpr h1, (in_iff_within _ _ (hne b hb)).mpr h2⟩

/-- C1, scenario A: the full-frame zone (width = 0, height = 0) on a 640x480 frame
with the box (10,10)-(20,20) gives true, and the box is contained in frame and zone. -/
theorem detectMotion_iff_contained_witness :
    (∀ b ∈ [Rect 10 10 20 20], b.Empty = false) ∧
      detectMotion vga [Rect 10 10 20 20]
        (SetRestrictedZone 0 0 0 0 vga ⟨⟨0, 0⟩, ⟨0, 0⟩⟩) = true ∧
      ∃ b ∈ [Rect 10 10 20 20], b.Within (Rect 0 0 vga.Cols vga.Rows) ∧
        b.Within (SetRestrictedZone 0 0 0 0 vga ⟨⟨0, 0⟩, ⟨0, 0⟩⟩) :=
  ⟨by decide, by decide,
    (detectMotion_iff_contained vga [Rect 10 10 20 20]
      (SetRestrictedZone 0 0 0 0 vga ⟨⟨0, 0⟩, ⟨0, 0⟩⟩) (by decide)).mp (by decide)⟩

/-! ## C2 -/

/-- C2, as stated, fails: with `-x 9223372036854775807 -y 1 -width 1 -height 1` the
sum `x+w` of line 339 overflows Go's `int`: `Min` is `(9223372036854775807, 1)` and
`Max` is `(-9223372036854775808, 2)`, so `Max.X` is not `Min.X + 1`. -/
theorem SetRestrictedZone_overflow :
    (SetRestrictedZone 9223372036854775807 1 1 1 vga ⟨⟨0, 0⟩, ⟨0, 0⟩⟩).Min =
        ⟨9223372036854775807, 1⟩ ∧
      (SetRestrictedZone 9223372036854775807 1 1 1 vga ⟨⟨0, 0⟩, ⟨0, 0⟩⟩).Max =
        ⟨-9223372036854775808, 2⟩ ∧
      (SetRestrictedZone 9223372036854775807 1 1 1 vga ⟨⟨0, 0⟩, ⟨0, 0⟩⟩).Max.X ≠
        (SetRestrictedZone 9223372036854775807 1 1 1 vga ⟨⟨0, 0⟩, ⟨0, 0⟩⟩).Min.X + 1 := by
  decide

/-- C2, amended: `SetRestrictedZone` sets `Min` to `(pointX, pointY)` when both are
positive and to `(0,0)` otherwise; with `w = cols` if `width <= 0` else `width` and
`h = rows` if `height <= 0` else `height`, each coordinate of `Max` is the sum
`Min.X + w`, `Min.Y + h` reduced modulo 2^64 into the range of a 64-bit `int`, and
`Max = Min + (w, h)` exactly whenever both sums lie in that range. -/
theorem SetRestrictedZone_spec (pointX pointY width height : Int) (img : Mat)
    (area : Rectangle) :
    (SetRestrictedZone pointX pointY width height img area).Min =
        (if pointX > 0 ∧ pointY > 0 then ⟨pointX, pointY⟩ else ⟨0, 0⟩) ∧
      (SetRestrictedZone pointX pointY width height img area).Max =
        ⟨((SetRestrictedZone pointX pointY width height img area).Min.X +
              (if width ≤ 0 then img.Cols else width) + 2 ^ 63) % 2 ^ 64 - 2 ^ 63,
          ((SetRestrictedZone pointX pointY width height img area).Min.Y +
              (if height ≤ 0 then img.Rows else height) + 2 ^ 63) % 2 ^ 64 - 2 ^ 63⟩ ∧
      (-(2 ^ 63) ≤ (SetRestrictedZone pointX pointY width height img area).Min.X +
            (if width ≤ 0 then img.Cols else width) ∧
          (SetRestrictedZone pointX pointY width height img area).Min.X +
            (if width ≤ 0 then img.Cols else width) < 2 ^ 63 →
        -(2 ^ 63) ≤ (SetRestrictedZone pointX pointY width height img area).Min.Y +
            (if height ≤ 0 then img.Rows else height) ∧
          (SetRestrictedZone pointX pointY width height img area).Min.Y +
            (if height ≤ 0 then img.Rows else height) < 2 ^ 63 →
        (SetRestrictedZone pointX pointY width height img area).Max =
          ⟨(SetRestrictedZone pointX pointY width height img area).Min.X +
              (if width ≤ 0 then img.Cols else width),
            (SetRestrictedZone pointX pointY width height img area).Min.Y +
              (if height ≤ 0 then img.Rows else height)⟩) := by
  have hmin : (SetRestrictedZone pointX pointY width height img area).Min =
      (if pointX > 0 ∧ pointY > 0 then ⟨pointX, pointY⟩ else ⟨0, 0⟩) := by
    unfold SetRestrictedZone
    by_cases h : pointX > 0 ∧ pointY > 0 <;> simp [h]
  have hmax : (SetRestrictedZone pointX pointY width height img area).Max =
      ⟨wrapInt ((SetRestrictedZone pointX pointY width height img area).Min.X +
          (if width ≤ 0 then img.Cols else width)),
        wrapInt ((SetRestrictedZone pointX pointY width height img area).Min.Y +
          (if height ≤ 0 then img.Rows else height))⟩ := by
    unfold SetRestrictedZone
    by_cases h : pointX > 0 ∧ pointY > 0 <;> simp [h, addInt]
  refine ⟨hmin, ?_, ?_⟩
  · rw [hmax]
    rfl
  · intro hx hy
    rw [hmax, wrapInt_of_isInt _ hx, wrapInt_of_isInt _ hy]

/-- C2, amended, at the flags' defaults on a 640x480 frame: the sums fit and the zone
is the whole frame, (0,0)-(640,480). -/
theorem SetRestrictedZone_spec_witness :
    (SetRestrictedZone 0 0 0 0 vga ⟨⟨0, 0⟩, ⟨0, 0⟩⟩).Min = ⟨0, 0⟩ ∧
      (SetRestrictedZone 0 0 0 0 vga ⟨⟨0, 0⟩, ⟨0, 0⟩⟩).Max = ⟨0 + 640, 0 + 480⟩ :=
  ⟨(SetRestrictedZone_spec 0 0 0 0 vga ⟨⟨0, 0⟩, ⟨0, 0⟩⟩).1,
    (SetRestrictedZone_spec 0 0 0 0 vga ⟨⟨0, 0⟩, ⟨0, 0⟩⟩).2.2 (by decide) (by decide)⟩

/-! ## C3 -/

/-- C3, as stated, fails: on a 640x480 frame with zone (0,0)-(1000,480), the box
(600,10)-(700,20) overlaps the frame, is not wholly contained in it and lies inside
the zone, yet `detectMotion` returns false: the box is skipped. -/
theorem detectMotion_skips_box_crossing_frame_edge :
    (Rect 600 10 700 20).Overlaps (Rect 0 0 vga.Cols vga.Rows) = true ∧
      (Rect 600 10 700 20).SharesPoint (Rect 0 0 vga.Cols vga.Rows) ∧
      ¬ (Rect 600 10 700 20).Within (Rect 0 0 vga.Cols vga.Rows) ∧
      (Rect 600 10 700 20).Within (Rect 0 0 1000 480) ∧
      detectMotion vga [Rect 600 10 700 20] (Rect 0 0 1000 480) = false := by
  refine ⟨by decide, ⟨600, 10, by decide, by decide⟩, ?_, ?_, by decide⟩
  · intro h
    have := (in_iff_within _ _ (by decide)).mpr h
    revert this
    decide
  · exact (in_iff_within _ _ (by decide)).mp (by decide)

/-- C3, amended: a detection box that overlaps the frame rectangle but is not wholly
contained in it is skipped: `detectMotion` on the list `[b]` returns false, whatever
the zone (also when `b` lies inside the zone). -/
theorem detectMotion_box_not_in_frame (img : Mat) (area b : Rectangle)
    (hov : b.SharesPoint (Rect 0 0 img.Cols img.Rows))
    (hnot : ¬ b.Within (Rect 0 0 img.Cols img.Rows)) :
    detectMotion img [b] area = false := by
  have hne := not_empty_of_sharesPoint _ _ hov
  have hin : b.In (Rect 0 0 img.Cols img.Rows) = false := by
    rw [← Bool.not_eq_true]
    exact fun h => hnot ((in_iff_within _ _ hne).mp h)
  simp [detectMotion, hin]

/-- C3, amended, at the box (600,10)-(700,20) on a 640x480 frame. -/
theorem detectMotion_box_not_in_frame_witness :
    detectMotion vga [Rect 600 10 700 20] (Rect 0 0 1000 480) = false :=
  detectMotion_box_not_in_frame vga (Rect 0 0 1000 480) (Rect 600 10 700 20)
    ⟨600, 10, by decide, by decide⟩
    (fun h => absurd ((in_iff_within _ _ (by decide)).mpr h) (by decide))

/-! ## C4 -/

/-- C4 at the zero-area box (5,5)-(5,5): it is well formed and shares no point with
the zone (100,100)-(200,200), and `detectMotion` returns true on a 640x480 frame. -/
theorem detectMotion_zero_area_box_alerts :
    (Rect 5 5 5 5).WellFormed ∧ ¬ (Rect 5 5 5 5).SharesPoint (Rect 100 100 200 200) ∧
      detectMotion vga [Rect 5 5 5 5] (Rect 100 100 200 200) = true := by
  refine ⟨by decide, ?_, by decide⟩
  intro h
  have := not_empty_of_sharesPoint _ _ h
  revert this
  decide

/-! ## C5 -/

/-- C5: the payload is `{"Safe" : true}` when `Alert` is false and `{"Safe" : false}`
when `Alert` is true, so two results give the same payload exactly when their
`Alert` flags agree (the payload does not depend on `Perf`). -/
theorem ToMQTTMessage_spec (r r2 : Result) :
    r.ToMQTTMessage =
        (if r.Alert then "\x7b\"Safe\" : false\x7d" else "\x7b\"Safe\" : true\x7d") ∧
      (r.ToMQTTMessage = r2.ToMQTTMessage ↔ r.Alert = r2.Alert) := by
  obtain ⟨a, p⟩ := r
  obtain ⟨a2, p2⟩ := r2
  cases a <;> cases a2 <;> simp [Result.ToMQTTMessage, fmtBool]

/-! ## C6 -/

/-- C6, as stated, fails: in the execution below (no publishing) the first result
(alert) is still unconsumed in `resultsChan` when `frameRunner` delivers the second
(no alert); the send is not enabled, the worker stays at the send, and the slot
still holds the first result. -/
theorem frameRunner_delivery_blocks_on_unconsumed_result :
    ∃ s, run (Sys.init defaultCfg false)
          [.mainRead vga, .mainZone, .mainKey .other, .mainSend, .frFrame, .frCopy,
            .frDetect onePerson, .mainDefault, .mainRead vga, .mainZone, .mainKey .other,
            .mainSend, .frSendResults, .frSendPub, .frFrame, .frCopy,
            .frDetect nobody] = some s ∧
      s.resultsChan = ⟨[⟨true, some ⟨0⟩⟩], 1, false⟩ ∧
      s.fr = .sendResults ⟨false, some ⟨0⟩⟩ ∧
      step s .frSendResults = none :=
  ⟨_, rfl, by decide, by decide, by decide⟩

/-- C6, amended: delivery is a blocking send on a capacity-one FIFO channel. If `r1`
is still unconsumed in the slot of `resultsChan` (or of `pubChan`) when `frameRunner`
delivers `r2`, no move of the worker is enabled: it blocks, and `r1` stays in the
slot. Once the slot has been emptied by the consumer the send completes and the slot
holds exactly `r2`. -/
theorem frameRunner_send_blocks_while_slot_full (s : Sys) (r1 r2 : Result)
    (hc : s.crashed = false)
    (h : (s.fr = .sendResults r2 ∧ s.resultsChan = ⟨[r1], 1, false⟩) ∨
      (s.fr = .sendPub r2 ∧ s.pubChan = some ⟨[r1], 1, false⟩)) :
    (∀ a : Action, a.who = .frameRunner → step s a = none) ∧
      (s.fr = .sendResults r2 →
        (step { s with resultsChan := ⟨[], 1, false⟩ } .frSendResults).map
          (fun t => t.resultsChan) = some ⟨[r2], 1, false⟩) ∧
      (s.fr = .sendPub r2 →
        (step { s with pubChan := some ⟨[], 1, false⟩ } .frSendPub).map
          (fun t => t.pubChan) = some (some ⟨[r2], 1, false⟩)) := by
  refine ⟨?_, ?_, ?_⟩
  · intro a ha
    rcases h with ⟨hfr, hch⟩ | ⟨hfr, hch⟩ <;>
      cases a <;> simp [Action.who] at ha <;>
      simp [step, stepFR, Action.who, hc, hfr, hch, Chan.send]
  · intro hfr
    simp [step, stepFR, Action.who, hc, hfr, Chan.send]
  · intro hfr
    simp [step, stepFR, Action.who, hc, hfr, Chan.send]

/-- C6, amended, at a state with the alert result in the slot of `resultsChan` and
the worker about to deliver a no-alert result. -/
theorem frameRunner_send_blocks_while_slot_full_witness :
    step
        { Sys.init defaultCfg false with
          resultsChan := ⟨[⟨true, none⟩], 1, false⟩, fr := .sendResults ⟨false, none⟩ }
        .frSendResults = none :=
  (frameRunner_send_blocks_while_slot_full
    { Sys.init defaultCfg false with
      resultsChan := ⟨[⟨true, none⟩], 1, false⟩, fr := .sendResults ⟨false, none⟩ }
    ⟨true, none⟩ ⟨false, none⟩ rfl (Or.inl ⟨rfl, rfl⟩)).1 .frSendResults rfl

/-! ## C7 -/

/-- C7, as stated, fails: with publishing on, a tick taken while `pubChan` holds no
Result leaves `messageRunner` in the receive `result := <-pubChan`, not back at its
select; after `main` has closed `doneChan` and the ticker has fired again it still
takes neither the stop branch nor the tick branch. -/
theorem messageRunner_tick_waits_for_result :
    ∃ s, run (Sys.init defaultCfg true)
          [.tick, .mrTick, .mainReadFail ⟨0, 0⟩, .mainCloseFrames, .mainCloseDone, .tick] = some s ∧
      s.pubChan = some ⟨[], 1, false⟩ ∧ s.doneChan.closed = true ∧ s.ticker.buf = [()] ∧
      s.published = [] ∧ s.mr = some .recv ∧
      step s .mrStop = none ∧ step s .mrTick = none ∧
      step s .mrRecv = none :=
  ⟨_, rfl, by decide, by decide, by decide, by decide, by decide, by decide, by decide,
    by decide⟩

/-- C7, amended: on a timer tick taken while the open publish channel holds no
Result, nothing is published and the throttler does not go back to idle: it blocks in
a receive on `pubChan`, where no move of it is enabled (no tick, no discard, no stop
signal) until a Result arrives; the Result `r` that then arrives is received and
published, after which the throttler is idle again. While `pubChan` is open the
throttler's only transitions are Idle -> Receiving (tick) -> Publishing (Result
received) -> Idle, Idle -> Idle (Result discarded) and Idle -> Terminated (stop
signal, through the wrapper's report). -/
theorem messageRunner_tick_blocks_on_empty_pubChan (s : Sys)
    (hc : s.crashed = false) (hmr : s.mr = some .select)
    (hpub : s.pubChan = some ⟨[], 1, false⟩) (htick : s.ticker.recv.isSome = true) :
    ∃ s1, step s .mrTick = some s1 ∧ s1.mr = some .recv ∧
      s1.published = s.published ∧ s1.pubChan = s.pubChan ∧
      (∀ a : Action, a.who = .messageRunner → step s1 a = none) ∧
      (∀ r : Result,
        (run { s1 with pubChan := some ⟨[r], 1, false⟩ } [.mrRecv, .mrPublish]).map
            (fun t => (t.mr, t.pubChan, t.published)) =
          some (some .select, some ⟨[], 1, false⟩,
            s.published ++ [(topic, r.ToMQTTMessage)])) ∧
      ∀ (t t1 : Sys) (a : Action), (∀ c, t.pubChan = some c → c.closed = false) →
        step t a = some t1 →
        t1.mr = t.mr ∨ ∃ p q, t.mr = some p ∧ t1.mr = some q ∧ mrNext p q = true := by
  obtain ⟨⟨v, c⟩, hrecv⟩ := Option.isSome_iff_exists.mp htick
  refine ⟨{ s with ticker := c, mr := some .recv }, ?_, rfl, rfl, rfl, ?_, ?_, ?_⟩
  · simp [step, stepMR, Action.who, hc, hmr, hrecv]
  · intro a ha
    cases a <;> simp [Action.who] at ha <;>
      simp [step, stepMR, Action.who, hc, hpub, Chan.recv]
  · intro r
    simp [run, step, stepMR, Action.who, hc, Chan.recv]
  · intro t t1 a hopen h
    exact step_mr_table t t1 a hopen h

/-- C7, amended, at the state reached by one tick of the ticker from the start-up
state with publishing on. -/
theorem messageRunner_tick_blocks_on_empty_pubChan_witness :
    ∃ s1, step
          { Sys.init defaultCfg true with ticker := ⟨[()], 1, false⟩ } .mrTick = some s1 ∧
      s1.mr = some .recv ∧ s1.published = [] ∧
      ∀ a : Action, a.who = .messageRunner → step s1 a = none := by
  obtain ⟨s1, h1, h2, h3, _, h5, _, _⟩ :=
    messageRunner_tick_blocks_on_empty_pubChan
      { Sys.init defaultCfg true with ticker := ⟨[()], 1, false⟩ } rfl rfl rfl rfl
  exact ⟨s1, h1, h2, h3, h5⟩

/-! ## C8 -/

/-- C8, as stated, fails: in the execution below `main` has closed `framesChan` and
`doneChan` while a frame is still buffered; `frameRunner` is at its select, and the
frame branch is enabled: the worker receives the frame and runs detection on it. -/
theorem frameRunner_accepts_buffered_frame_after_stop :
    ∃ s s1 s2, run (Sys.init defaultCfg false)
          [.mainRead vga, .mainZone, .mainKey .other, .mainSend, .mainSig,
            .mainCloseFrames, .mainCloseDone] = some s ∧
      s.doneChan.closed = true ∧ s.fr = .select ∧
      s.framesChan = ⟨[⟨.mainImg, .mainArea⟩], 1, true⟩ ∧
      step s .frFrame = some s1 ∧
      s1.fr = .copy ⟨.mainImg, .mainArea⟩ ∧ s1.framesChan.buf = [] ∧
      run s1 [.frCopy, .frDetect nobody] = some s2 ∧
      s2.fr = .sendResults ⟨false, some ⟨0⟩⟩ :=
  ⟨_, _, _, rfl, by decide, by decide, by decide, rfl, by decide, by decide, rfl,
    by decide⟩

/-- C8, amended: at an iteration of `frameRunner`'s select that starts after
`doneChan` is closed the stop branch is enabled, and once it is taken the worker
never receives a frame again; but a frame still buffered in `framesChan` keeps the
frame branch enabled as well, and when select picks it the worker receives that
frame and goes on to run detection through its pointers, that is on what `main`'s
`img` holds when the copy of line 211 runs and what `main`'s `area` holds when
`detectMotion` runs. Only when `framesChan` holds no buffered frame is the worker
certain to accept none: the frame branch then leaves it at the select. -/
theorem frameRunner_select_after_stop (s : Sys)
    (hc : s.crashed = false) (hfr : s.fr = .select) (hdone : s.doneChan.closed = true) :
    (∃ s1, step s .frStop = some s1 ∧ s1.fr = .closeResults ∧
        s1.framesChan = s.framesChan ∧
        ∀ as : List Action, step (exec s1 as) .frFrame = none) ∧
      (∀ (f : frame) (rest : List frame), s.framesChan.buf = f :: rest →
        (∃ s2, step s .frFrame = some s2 ∧ s2.fr = .copy f ∧ s2.framesChan.buf = rest) ∧
        (∀ t : Sys, t.crashed = false → t.fr = .copy f →
          (step t .frCopy).map (fun u => u.fr) = some (.detect f (t.loadMat f.img))) ∧
        (∀ (t : Sys) (img : Mat) (out : Detection), t.crashed = false →
          t.fr = .detect f img →
          (step t (.frDetect out)).map (fun u => u.fr) =
            some (.sendResults
              ⟨detectMotion img (detectPersons out) (t.loadRect f.area),
                getPerformanceInfo out⟩))) ∧
      (s.framesChan.buf = [] → ∀ s2, step s .frFrame = some s2 →
        s2.fr = .select ∧ s2.resultsChan = s.resultsChan ∧ s2.pubChan = s.pubChan) := by
  refine ⟨?_, ?_, ?_⟩
  · obtain ⟨v, c, hrecv⟩ := Chan.recv_isSome_of_closed s.doneChan hdone
    refine ⟨{ s with doneChan := c, fr := .closeResults }, ?_, rfl, rfl, ?_⟩
    · simp [step, stepFR, Action.who, hc, hfr, hrecv]
    · intro as
      exact frFrame_disabled_of_stopped _ (exec_fr_stopped as _ rfl)
  · intro f rest hbuf
    refine ⟨⟨{ s with
                framesChan := ⟨rest, s.framesChan.cap, s.framesChan.closed⟩
                fr := .copy f }, ?_, rfl, rfl⟩, ?_, ?_⟩
    · simp [step, stepFR, Action.who, hc, hfr, Chan.recv, hbuf]
    · intro t htc htf
      simp [step, stepFR, Action.who, htc, htf]
    · intro t img out htc htf
      simp [step, stepFR, Action.who, htc, htf]
  · intro hbuf s2 h
    have hr : s.framesChan.recv = none ∨ s.framesChan.recv = some (none, s.framesChan) := by
      unfold Chan.recv
      rw [hbuf]
      by_cases hcl : s.framesChan.closed = true <;> simp [hcl]
    rcases hr with hr | hr
    · simp [step, stepFR, Action.who, hc, hfr, hr] at h
    · simp [step, stepFR, Action.who, hc, hfr, hr] at h
      subst h
      refine ⟨?_, rfl, rfl⟩
      first
        | exact hfr
        | rfl

/-- C8, amended, at an ESC shutdown: the buffered frame was sent when `img` was
640x480; `main` has since read a 320x240 image into `img`, reset `area` and closed
both channels. The frame branch is enabled and the worker receives the frame. -/
theorem frameRunner_select_after_stop_witness :
    ∃ s2, step
          { Sys.init defaultCfg false with
            framesChan := ⟨[⟨.mainImg, .mainArea⟩], 1, true⟩, doneChan := ⟨[], 0, true⟩,
            img := qvga, area := Rect 0 0 320 240, mainPc := .drain }
          .frFrame = some s2 ∧
      s2.fr = .copy ⟨.mainImg, .mainArea⟩ ∧ s2.framesChan.buf = [] :=
  ((frameRunner_select_after_stop
    { Sys.init defaultCfg false with
      framesChan := ⟨[⟨.mainImg, .mainArea⟩], 1, true⟩, doneChan := ⟨[], 0, true⟩,
      img := qvga, area := Rect 0 0 320 240, mainPc := .drain }
    rfl rfl rfl).2.1 ⟨.mainImg, .mainArea⟩ [] rfl).1

/-! ## C9 -/

/-- C9 at a schedule with publishing on: the first result (alert) is still in
`pubChan` when `main` shuts down; `messageRunner` takes its stop branch and returns;
`frameRunner`, already past its select with the second frame, delivers to
`resultsChan` and then blocks on `pubChan`. In the state reached both channels are
closed by `main`, and whatever is scheduled afterwards `frameRunner` stays at the send
on `pubChan`, `resultsChan` is never closed, and `main` stays in its drain loop. -/
theorem shutdown_deadlock_on_pubChan :
    run (Sys.init defaultCfg true)
          [.mainRead vga, .mainZone, .mainKey .other, .mainSend, .frFrame, .frCopy,
            .frDetect onePerson, .frSendResults, .frSendPub, .mainResult, .mainRead vga,
            .mainZone, .mainKey .other, .mainSend, .frFrame, .frCopy, .frDetect nobody,
            .mainSig, .mainCloseFrames, .mainCloseDone, .mrStop, .mrReport,
            .frSendResults, .mainDrain] = some shutdownStuck ∧
      shutdownStuck.framesChan.closed = true ∧ shutdownStuck.doneChan.closed = true ∧
      ∀ as : List Action,
        (exec shutdownStuck as).fr = .sendPub ⟨false, some ⟨0⟩⟩ ∧
        (exec shutdownStuck as).mr = some .finished ∧
        (exec shutdownStuck as).pubChan = some ⟨[⟨true, some ⟨0⟩⟩], 1, false⟩ ∧
        (exec shutdownStuck as).resultsChan.closed = false ∧
        (exec shutdownStuck as).mainPc = .drain := by
  refine ⟨by decide, by decide, by decide, ?_⟩
  intro as
  have h := exec_stuckAtPub ⟨true, some ⟨0⟩⟩ ⟨false, some ⟨0⟩⟩ as shutdownStuck
    ⟨rfl, rfl, rfl, rfl, rfl, rfl⟩
  obtain ⟨_, h2, h3, h4, h5, h6⟩ := h
  exact ⟨h2, h4, h5, by rw [h6], h3⟩

/-! ## C10 -/

/-- C10 at a schedule with publishing on: `messageRunner` takes a tick while
`pubChan` is empty and blocks in the receive; `main` shuts down and `frameRunner`
closes `pubChan`; the receive then yields nil, which is the value handed to
`ToMQTTMessage`, and the publish step panics. -/
theorem messageRunner_publishes_nil_after_close :
    ∃ s s1, run (Sys.init defaultCfg true)
          [.tick, .mrTick, .mainReadFail ⟨0, 0⟩, .mainCloseFrames, .mainCloseDone, .frStop,
            .frCloseResults, .frClosePub, .mrRecv] = some s ∧
      s.mr = some (.publish none) ∧ s.crashed = false ∧
      step s .mrPublish = some s1 ∧ s1.crashed = true ∧ s1.published = [] :=
  ⟨_, _, rfl, by decide, by decide, rfl, by decide, by decide⟩

end RestrictedZone
